import Mathlib

/-
  Shallow embedding of the route-profitability engine of the
  Airline Club route-finder bot (src/airlineClient.js, latest iteration,
  together with the state layout produced by src/stateStore.js and the
  planelist/excludelist commands).  Numeric values are modelled as
  rationals, JavaScript Math.round as Mathlib round (both round halves
  toward positive infinity), and the asynchronous data source as an
  injected function returning Option.
-/

namespace AirlineBot

/-- Airport reference record as returned by the airports endpoint. -/
structure Airport where
  id : Nat
  iata : String
  city : String
  size : Nat
deriving DecidableEq

/-- One entry of routeData.modelPlanLinkInfo: an aircraft option offered
for the route, with route-specific frequency, capacity and duration. -/
structure PlaneOption where
  modelId : Nat
  modelName : String
  maxFrequency : Nat
  capacity : Nat
  duration : Nat
deriving DecidableEq

/-- Base stats of an airplane model from the airplane-models endpoint. -/
structure ModelSpec where
  fuelBurn : ℚ
  price : ℚ
  lifespan : ℚ
  airplaneType : String
deriving DecidableEq

/-- A competitor link on the route, carrying its economy price. -/
structure CompetitorLink where
  priceEconomy : ℚ
deriving DecidableEq

/-- The plan-link response for one origin-destination pair. -/
structure RouteData where
  fromAirportId : Nat
  toAirportId : Nat
  distance : ℚ
  otherLinks : List CompetitorLink
  suggestedPriceEconomy : ℚ
  modelPlanLinkInfo : List PlaneOption
deriving DecidableEq

/-- One entry of the per-account planeList: the planelist_add command
stores either a numeric model id (modelName null) or a normalized name
fragment (modelId null). -/
structure UserPlane where
  modelId : Option Nat
  modelName : Option String
deriving DecidableEq

/-- Result record returned by analyzeRoute. -/
structure AnalyzeResult where
  fromAirportId : Nat
  toAirportId : Nat
  score : ℤ
  planeName : String
deriving DecidableEq

/-- A fully identified RouteScore as accumulated by runAnalysis. -/
structure RouteScore where
  fromAirportId : Nat
  toAirportId : Nat
  score : ℤ
  planeName : String
  fromIata : String
  fromCity : String
  toIata : String
  toCity : String
deriving DecidableEq

/-- Fuel price constant FUEL_UNIT_COST = 0.0043 from the source. -/
def FUEL_UNIT_COST : ℚ := 43 / 10000

/-- Ascent multiplier for the first 180 distance units. -/
def ASCEND_FUEL_BURN_MULTIPLIER_1 : ℚ := 32

/-- Ascent multiplier for the next 250 distance units. -/
def ASCEND_FUEL_BURN_MULTIPLIER_2 : ℚ := 13

/-- Ascent multiplier for the remainder up to 1000 distance units. -/
def ASCEND_FUEL_BURN_MULTIPLIER_3 : ℚ := 2

/-- Crew cost constant CREW_UNIT_COST = 12 from the source. -/
def CREW_UNIT_COST : ℚ := 12

/-- In-flight base cost constant BASE_INFLIGHT_COST = 20 from the source. -/
def BASE_INFLIGHT_COST : ℚ := 20

/-- The engine always assumes a 100 percent load factor. -/
def DEFAULT_LOAD_FACTOR : ℚ := 1

/-- Default quality level (3 star) used for service supplies. -/
def DEFAULT_QUALITY : Nat := 60

/-- Airplane type to slot-fee multiplier table from the source. -/
def airplaneTypeMultiplierMap : List (String × ℚ) :=
  [("LIGHT", 1), ("SMALL", 1), ("REGIONAL", 3), ("MEDIUM", 8),
   ("LARGE", 12), ("X_LARGE", 15), ("JUMBO", 18), ("SUPERSONIC", 12)]

/-- Per-hour service supply cost by star level (index 0 to 5). -/
def durationCostPerHourByStar : List ℚ := [0, 1, 4, 8, 13, 20]

/-- Translation of calculateFuelCost: the distance is split into ascent
bands and a cruise part, the banded fuel-unit sum is doubled for the
round trip and scaled by the unit fuel price, the weekly frequency and
the load-factor multiplier. -/
def calculateFuelCost (distance fuelBurn : ℚ) (frequency : Nat) (loadFactor : ℚ) : ℚ :=
  let bands : ℚ × ℚ × ℚ × ℚ :=
    if distance ≤ 360 then
      (distance / 2 * fuelBurn * ASCEND_FUEL_BURN_MULTIPLIER_1, 0, 0,
       distance / 2 * fuelBurn)
    else if distance ≤ 500 then
      (180 * fuelBurn * ASCEND_FUEL_BURN_MULTIPLIER_1,
       (distance / 2 - 180) * fuelBurn * ASCEND_FUEL_BURN_MULTIPLIER_2, 0,
       distance / 2 * fuelBurn)
    else if distance ≤ 2000 then
      (180 * fuelBurn * ASCEND_FUEL_BURN_MULTIPLIER_1,
       250 * fuelBurn * ASCEND_FUEL_BURN_MULTIPLIER_2,
       (distance / 2 - 180 - 250) * fuelBurn * ASCEND_FUEL_BURN_MULTIPLIER_3,
       distance / 2 * fuelBurn)
    else
      (180 * fuelBurn * ASCEND_FUEL_BURN_MULTIPLIER_1,
       250 * fuelBurn * ASCEND_FUEL_BURN_MULTIPLIER_2,
       1000 * fuelBurn * ASCEND_FUEL_BURN_MULTIPLIER_3,
       (distance - 180 - 250 - 1000) * fuelBurn)
  let fuelUnitsPerFlight := bands.1 + bands.2.1 + bands.2.2.1 + bands.2.2.2
  let loadFactorMultiplier := 7 / 10 + 3 / 10 * loadFactor
  fuelUnitsPerFlight * 2 * FUEL_UNIT_COST * (frequency : ℚ) * loadFactorMultiplier

/-- The banded per-flight fuel-unit sum of calculateFuelCost, named so
that theorems can speak about it. -/
def fuelUnitsPerFlight (distance fuelBurn : ℚ) : ℚ :=
  if distance ≤ 360 then
    distance / 2 * fuelBurn * ASCEND_FUEL_BURN_MULTIPLIER_1 + distance / 2 * fuelBurn
  else if distance ≤ 500 then
    180 * fuelBurn * ASCEND_FUEL_BURN_MULTIPLIER_1
      + (distance / 2 - 180) * fuelBurn * ASCEND_FUEL_BURN_MULTIPLIER_2
      + distance / 2 * fuelBurn
  else if distance ≤ 2000 then
    180 * fuelBurn * ASCEND_FUEL_BURN_MULTIPLIER_1
      + 250 * fuelBurn * ASCEND_FUEL_BURN_MULTIPLIER_2
      + (distance / 2 - 180 - 250) * fuelBurn * ASCEND_FUEL_BURN_MULTIPLIER_3
      + distance / 2 * fuelBurn
  else
    180 * fuelBurn * ASCEND_FUEL_BURN_MULTIPLIER_1
      + 250 * fuelBurn * ASCEND_FUEL_BURN_MULTIPLIER_2
      + 1000 * fuelBurn * ASCEND_FUEL_BURN_MULTIPLIER_3
      + (distance - 180 - 250 - 1000) * fuelBurn

/-- The load-factor multiplier of calculateFuelCost: a 0.7 baseline
blended with 0.3 times the assumed load. -/
def loadFactorMultiplier (loadFactor : ℚ) : ℚ := 7 / 10 + 3 / 10 * loadFactor

/-- Translation of calculateCrewCost: all-economy crew cost per flight,
doubled for the round trip and scaled by weekly frequency. -/
def calculateCrewCost (capacity durationMinutes frequency : Nat) : ℚ :=
  let costPerFlight := 1 * (capacity : ℚ) * ((durationMinutes : ℚ) / 60) * CREW_UNIT_COST
  costPerFlight * 2 * (frequency : ℚ)

/-- Slot fee tier table indexed by airport size. -/
def baseSlotFees : List ℚ := [0, 50, 50, 80, 150, 250, 350, 500]

/-- Translation of calculateAirportFees: slot fees (tiered by size,
multiplied by the airplane-type multiplier, discounted at home bases)
plus per-seat landing fees at both endpoints, scaled by frequency. -/
def calculateAirportFees (capacity : Nat) (airplaneType : String)
    (fromAirport toAirport : Airport) (baseIatas : List String) (frequency : Nat) : ℚ :=
  let typeMultiplier := (airplaneTypeMultiplierMap.lookup airplaneType).getD 1
  let getSlotFee := fun (airport : Airport) =>
    let baseFee := baseSlotFees.getD (min airport.size 7) 0
    let discount : ℚ := if baseIatas.contains airport.iata then 8 / 10 else 1
    baseFee * typeMultiplier * discount
  let getLandingFee := fun (airport : Airport) =>
    let perSeatFee : ℚ := if airport.size ≤ 3 then 3 else (airport.size : ℚ)
    (capacity : ℚ) * perSeatFee
  let feePerFlight :=
    getSlotFee fromAirport + getSlotFee toAirport
      + getLandingFee fromAirport + getLandingFee toAirport
  feePerFlight * (frequency : ℚ)

/-- Translation of calculateDepreciation: price over lifespan in weeks. -/
def calculateDepreciation (price lifespan : ℚ) : ℚ := price / lifespan

/-- Translation of calculateMaintenance: 150 per seat per week. -/
def calculateMaintenance (capacity : Nat) : ℚ := (capacity : ℚ) * 150

/-- Translation of calculateServiceSupplies: per-passenger in-flight
cost (base plus duration component at the default star level), doubled
for the round trip, times sold seats times frequency. -/
def calculateServiceSupplies (durationMinutes soldSeats frequency : Nat) : ℚ :=
  let star := DEFAULT_QUALITY / 20
  let durationCost := durationCostPerHourByStar.getD (min star 5) 0
  let costPerPassenger := BASE_INFLIGHT_COST + durationCost * (durationMinutes : ℚ) / 60
  let roundtripCostPerPassenger := costPerPassenger * 2
  let totalPaxPerWeek := ((soldSeats * frequency : Nat) : ℚ)
  roundtripCostPerPassenger * totalPaxPerWeek

/-- Translation of getTicketPrice: the minimum economy price among the
competitor links when any exist, else the suggested economy price. -/
def getTicketPrice (rd : RouteData) : ℚ :=
  let competitorPrices := rd.otherLinks.map (fun comp => comp.priceEconomy)
  match competitorPrices with
  | [] => rd.suggestedPriceEconomy
  | p :: ps => ps.foldl min p

/-- Characters remaining after removing leading and trailing whitespace. -/
def trimChars (l : List Char) : List Char :=
  ((l.dropWhile Char.isWhitespace).reverse.dropWhile Char.isWhitespace).reverse

/-- Model of the JavaScript trim followed by toLowerCase normalization
applied to every stored and offered model name. -/
def jsTrimLower (s : String) : String := String.mk ((trimChars s.data).map Char.toLower)

/-- JavaScript string includes, modelled as infix on the character lists. -/
def jsIncludes (s pat : String) : Bool := decide (pat.data <:+: s.data)

/-- JavaScript truthiness of an optional numeric model id: present and
not zero. -/
def truthyId : Option Nat → Bool
  | some i => decide (i ≠ 0)
  | none => false

/-- JavaScript truthiness of an optional name: present and non-empty. -/
def truthyName : Option String → Bool
  | some s => decide (s ≠ "")
  | none => false

/-- The set of numeric ids built from the planelist by analyzeRoute. -/
def userPlaneIds (userPlaneList : List UserPlane) : List Nat :=
  (userPlaneList.filter (fun p => truthyId p.modelId)).filterMap (fun p => p.modelId)

/-- The set of normalized name fragments built from the planelist by
analyzeRoute: each stored name trimmed and lower-cased. -/
def userPlaneNames (userPlaneList : List UserPlane) : List String :=
  (userPlaneList.filter (fun p => truthyName p.modelName)).filterMap
    (fun p => p.modelName.map (fun s => jsTrimLower s))

/-- The viability predicate of analyzeRoute: an offered option matches
when its model id is in the id set, or when its normalized name has some
stored fragment as a substring. -/
def planeMatches (userPlaneList : List UserPlane) (model : PlaneOption) : Bool :=
  let idMatch := (userPlaneIds userPlaneList).contains model.modelId
  let nameMatch :=
    if model.modelName = "" then false
    else (userPlaneNames userPlaneList).any
      (fun storedName => jsIncludes (jsTrimLower model.modelName) storedName)
  idMatch || nameMatch

/-- Stated from the claim wording of the Fleet Matcher, for comparison
with planeMatches: an option matches when its numeric model id equals
the id of some owned entry, or when its normalized name contains the
normalized name fragment of some owned entry as a substring. -/
def specMatchesB (userPlaneList : List UserPlane) (model : PlaneOption) : Bool :=
  userPlaneList.any (fun p => p.modelId == some model.modelId)
  || userPlaneList.any (fun p =>
      match p.modelName with
      | some s => jsIncludes (jsTrimLower model.modelName) (jsTrimLower s)
      | none => false)

/-- Total weekly operating cost of one plane on one route: the sum of
the six cost components, exactly as summed inside analyzeRoute. -/
def weeklyCost (distance : ℚ) (baseIatas : List String)
    (fromAirport toAirport : Airport) (spec : ModelSpec) (plane : PlaneOption) : ℚ :=
  let soldSeats := Nat.floor ((plane.capacity : ℚ) * DEFAULT_LOAD_FACTOR)
  calculateFuelCost distance spec.fuelBurn plane.maxFrequency DEFAULT_LOAD_FACTOR
    + calculateCrewCost plane.capacity plane.duration plane.maxFrequency
    + calculateAirportFees plane.capacity spec.airplaneType fromAirport toAirport
        baseIatas plane.maxFrequency
    + calculateDepreciation spec.price spec.lifespan
    + calculateMaintenance plane.capacity
    + calculateServiceSupplies plane.duration soldSeats plane.maxFrequency

/-- The per-option score computed by analyzeRoute: profit per frequency,
rounded. -/
def scoreOf (distance ticketPrice : ℚ) (baseIatas : List String)
    (fromAirport toAirport : Airport) (spec : ModelSpec) (plane : PlaneOption) : ℤ :=
  round ((ticketPrice * (plane.maxFrequency : ℚ) * (plane.capacity : ℚ)
      - weeklyCost distance baseIatas fromAirport toAirport spec plane)
    / (plane.maxFrequency : ℚ))

/-- One step of the running-maximum selection in analyzeRoute: a strict
improvement replaces the best candidate, otherwise the old one stays. -/
def bestStep (best : Option (PlaneOption × ℤ)) (pr : PlaneOption × ℤ) :
    Option (PlaneOption × ℤ) :=
  match best with
  | none => some pr
  | some b => if b.2 < pr.2 then some pr else some b

/-- The viable options that are actually scored by analyzeRoute: those
with known base stats and non-zero frequency, paired with their score. -/
def scoredOptions (distance ticketPrice : ℚ) (baseIatas : List String)
    (fromAirport toAirport : Airport) (airplaneModelMap : Nat → Option ModelSpec)
    (planes : List PlaneOption) : List (PlaneOption × ℤ) :=
  planes.filterMap (fun plane =>
    match airplaneModelMap plane.modelId with
    | none => none
    | some spec =>
      if plane.maxFrequency = 0 then none
      else some (plane, scoreOf distance ticketPrice baseIatas fromAirport toAirport spec plane))

/-- Translation of analyzeRoute: filter the offered options by the
planelist, resolve both airports, then scan the viable options keeping
the first option attaining the maximal score; options without base
stats or with zero frequency are skipped. -/
def analyzeRoute (rd : RouteData) (userPlaneList : List UserPlane)
    (airplaneModelMap : Nat → Option ModelSpec) (airportMap : Nat → Option Airport)
    (baseIatas : List String) : Option AnalyzeResult :=
  let viablePlanes := rd.modelPlanLinkInfo.filter (fun m => planeMatches userPlaneList m)
  if viablePlanes = [] then none
  else
    let ticketPrice := getTicketPrice rd
    match airportMap rd.fromAirportId, airportMap rd.toAirportId with
    | some fromAirport, some toAirport =>
      let best := viablePlanes.foldl (fun best plane =>
        match airplaneModelMap plane.modelId with
        | none => best
        | some planeBaseStats =>
          if plane.maxFrequency = 0 then best
          else bestStep best (plane,
            scoreOf rd.distance ticketPrice baseIatas fromAirport toAirport
              planeBaseStats plane)) none
      match best with
      | none => none
      | some b => some ⟨rd.fromAirportId, rd.toAirportId, b.2, b.1.modelName⟩
    | _, _ => none

/-- The viable options of a route offer together with their scores, as
analyzeRoute considers them. -/
def routeScored (rd : RouteData) (userPlaneList : List UserPlane)
    (airplaneModelMap : Nat → Option ModelSpec) (baseIatas : List String)
    (fromAirport toAirport : Airport) : List (PlaneOption × ℤ) :=
  scoredOptions rd.distance (getTicketPrice rd) baseIatas fromAirport toAirport
    airplaneModelMap (rd.modelPlanLinkInfo.filter (fun m => planeMatches userPlaneList m))

/-- Descending-score ordering used by the per-base ranking. -/
def scoreGe (a b : RouteScore) : Prop := b.score ≤ a.score

instance : DecidableRel scoreGe :=
  fun a b => show Decidable (b.score ≤ a.score) from inferInstance

instance : IsTotal RouteScore scoreGe :=
  ⟨fun a b => le_total b.score a.score⟩

instance : IsTrans RouteScore scoreGe :=
  ⟨fun _ _ _ hab hbc => le_trans hbc hab⟩

/-- The stable sort by score descending applied to a base result list,
modelling routeScores.sort with the comparator on scores. -/
def sortScores (l : List RouteScore) : List RouteScore := l.insertionSort scoreGe

/-- Sort a base result list by score descending and keep the first ten,
as runAnalysis stores it. -/
def topTen (l : List RouteScore) : List RouteScore := (sortScores l).take 10

/-- Airport lookup by id built by runAnalysis from the airport list. -/
def airportIdLookup (allAirports : List Airport) (i : Nat) : Option Airport :=
  allAirports.find? (fun a => a.id = i)

/-- Attach origin and destination identity to an analysis result, as the
orchestrator does before accumulating it. -/
def attachIdentity (a : AnalyzeResult) (fromAirport destAirport : Airport) : RouteScore :=
  ⟨a.fromAirportId, a.toAirportId, a.score, a.planeName,
   fromAirport.iata, fromAirport.city, destAirport.iata, destAirport.city⟩

/-- The inner destination loop of runAnalysis for one base: skip the
base airport itself, fetch a route quote, skip the pair when the fetch
fails or the analysis yields nothing, else accumulate the score. -/
def scanBase (fetch : Nat → Nat → Option RouteData) (userPlaneList : List UserPlane)
    (airplaneModelMap : Nat → Option ModelSpec) (airportMap : Nat → Option Airport)
    (baseIatas : List String) (fromAirport : Airport) (fromAirportId : Nat)
    (airportsToScan : List Airport) : List RouteScore :=
  airportsToScan.foldl (fun routeScores destAirport =>
    if fromAirportId = destAirport.id then routeScores
    else
      match fetch fromAirportId destAirport.id with
      | none => routeScores
      | some routeData =>
        match analyzeRoute routeData userPlaneList airplaneModelMap airportMap baseIatas with
        | none => routeScores
        | some analysis => routeScores ++ [attachIdentity analysis fromAirport destAirport]) []

/-- The per-pair contribution of one destination inside scanBase. -/
def pairScore (fetch : Nat → Nat → Option RouteData) (userPlaneList : List UserPlane)
    (airplaneModelMap : Nat → Option ModelSpec) (airportMap : Nat → Option Airport)
    (baseIatas : List String) (fromAirport : Airport) (fromAirportId : Nat)
    (destAirport : Airport) : Option RouteScore :=
  match fetch fromAirportId destAirport.id with
  | none => none
  | some routeData =>
    match analyzeRoute routeData userPlaneList airplaneModelMap airportMap baseIatas with
    | none => none
    | some analysis => some (attachIdentity analysis fromAirport destAirport)

/-- The destination candidate list effectively used by runAnalysis for a
base: every airport of the scan list except the base airport itself. -/
def candidateDestinations (airportsToScan : List Airport) (fromAirportId : Nat) :
    List Airport :=
  airportsToScan.filter (fun destAirport => decide (fromAirportId ≠ destAirport.id))

/-- Modelled from the spec: the destination candidate list the spec and
the README describe, which in addition removes the airports of the
per-base exclude set; no function in the source implements this
filtering. -/
def specCandidateDestinations (airportsToScan : List Airport) (fromAirportId : Nat)
    (excludeIds : List Nat) : List Airport :=
  airportsToScan.filter (fun destAirport =>
    decide (fromAirportId ≠ destAirport.id) && !(excludeIds.contains destAirport.id))

/-- The test-limit truncation applied by runAnalysis to the airport list. -/
def applyTestLimit (allAirports : List Airport) (testLimit : Nat) : List Airport :=
  if 0 < testLimit ∧ testLimit < allAirports.length then allAirports.take testLimit
  else allAirports

/-- Translation of the base loop of runAnalysis after login and
reference fetches: for each base, resolve its airport (skipping bases
that are not found), scan all candidate destinations, sort the scores
descending and store the first ten under the base key. -/
def runAnalysisCore (fetch : Nat → Nat → Option RouteData) (allAirports : List Airport)
    (testLimit : Nat) (baseAirports : List (String × Nat))
    (userPlaneList : List UserPlane) (airplaneModelMap : Nat → Option ModelSpec) :
    List (String × List RouteScore) :=
  let airportsToScan := applyTestLimit allAirports testLimit
  let baseIatas := baseAirports.map (fun b => b.1)
  baseAirports.foldl (fun allResults base =>
    match airportIdLookup allAirports base.2 with
    | none => allResults
    | some fromAirport =>
      let routeScores := scanBase fetch userPlaneList airplaneModelMap
        (airportIdLookup allAirports) baseIatas fromAirport base.2 airportsToScan
      allResults ++ [(base.1, topTen routeScores)]) []

/-- Example airport used as the scan base in concrete instances. -/
def exA : Airport := ⟨1, "AAA", "Alpha", 3⟩

/-- Example destination airport, also used as an excluded airport. -/
def exB : Airport := ⟨2, "BBB", "Beta", 3⟩

/-- Second example destination airport. -/
def exC : Airport := ⟨3, "CCC", "Gamma", 3⟩

/-- Example airplane model base stats with zero fuel burn. -/
def exSpec : ModelSpec := ⟨0, 1000, 100, "SMALL"⟩

/-- Example airplane-model lookup covering ids 10 and 11. -/
def exMM : Nat → Option ModelSpec := fun i =>
  if i = 10 then some exSpec else if i = 11 then some exSpec else none

/-- Example airport lookup covering the three example airports. -/
def exAM : Nat → Option Airport := fun i =>
  if i = 1 then some exA else if i = 2 then some exB
  else if i = 3 then some exC else none

/-- First example offered option: 10 seats, one weekly frequency. -/
def exP1 : PlaneOption := ⟨10, "jet small", 1, 10, 60⟩

/-- Second example offered option: 20 seats, one weekly frequency. -/
def exP2 : PlaneOption := ⟨11, "jet big", 1, 20, 60⟩

/-- Example planelist: one id entry and one name fragment entry. -/
def exPlanes : List UserPlane := [⟨some 10, none⟩, ⟨none, some "jet"⟩]

/-- Example route offer with two scoreable options. -/
def exRd : RouteData := ⟨1, 2, 500, [], 300, [exP1, exP2]⟩

/-- Example route offer toward the second destination with one option. -/
def exRdC : RouteData := ⟨1, 3, 500, [], 300, [exP1]⟩

/-- Example route offer whose best achievable profit is negative. -/
def exRdNeg : RouteData := ⟨1, 2, 500, [], 1, [exP1]⟩

/-- Example route offer with two competitor prices 500 and 650. -/
def exRdTwo : RouteData := ⟨1, 2, 500, [⟨500⟩, ⟨650⟩], 300, []⟩

/-- Example route offer with no competitors and suggested price 420. -/
def exRdZero : RouteData := ⟨1, 2, 500, [], 420, []⟩

/-- Example data source that fails for destination 2 and succeeds for
destination 3. -/
def exFetch : Nat → Nat → Option RouteData := fun f t =>
  if f = 1 ∧ t = 3 then some exRdC else none

/-- Example data source that succeeds only for the pair 1 to 2. -/
def exFetch1 : Nat → Nat → Option RouteData := fun f t =>
  if f = 1 ∧ t = 2 then some exRd else none

/-- Offered option matched by id 10 in the matcher instance. -/
def exO1 : PlaneOption := ⟨10, "A330", 5, 10, 60⟩

/-- Offered option matched by the stored fragment jet. -/
def exO2 : PlaneOption := ⟨12, "Big Jetliner", 5, 10, 60⟩

/-- Offered option matched by nothing in the matcher instance. -/
def exO3 : PlaneOption := ⟨13, "Prop", 5, 10, 60⟩

/-- Route offer for the matcher instance with three offered options. -/
def exRd5 : RouteData := ⟨1, 2, 500, [], 300, [exO1, exO2, exO3]⟩


theorem foldl_min_le_init (ps : List ℚ) : ∀ p : ℚ, ps.foldl min p ≤ p := by
  induction ps with
  | nil => intro p; simp
  | cons q ps ih =>
    intro p
    rw [List.foldl_cons]
    exact le_trans (ih (min p q)) (min_le_left p q)

theorem foldl_min_le_mem (ps : List ℚ) : ∀ p q : ℚ, q ∈ ps → ps.foldl min p ≤ q := by
  induction ps with
  | nil => intro p q h; cases h
  | cons a ps ih =>
    intro p q h
    rw [List.foldl_cons]
    rcases List.mem_cons.mp h with rfl | h
    · exact le_trans (foldl_min_le_init ps (min p q)) (min_le_right p q)
    · exact ih (min p a) q h

theorem foldl_min_mem (ps : List ℚ) : ∀ p : ℚ, ps.foldl min p = p ∨ ps.foldl min p ∈ ps := by
  induction ps with
  | nil => intro p; simp
  | cons a ps ih =>
    intro p
    rw [List.foldl_cons]
    rcases ih (min p a) with h | h
    · rcases min_choice p a with h2 | h2
      · left; rw [h, h2]
      · right; rw [h, h2]; exact List.mem_cons_self a ps
    · right; exact List.mem_cons_of_mem a h

theorem bestStep_foldl (l : List (PlaneOption × ℤ)) : ∀ b : PlaneOption × ℤ,
    ∃ r, l.foldl bestStep (some b) = some r ∧ b.2 ≤ r.2 ∧ (∀ q ∈ l, q.2 ≤ r.2) ∧
      (r = b ∨ (b.2 < r.2 ∧ l.find? (fun q => decide (r.2 ≤ q.2)) = some r)) := by
  induction l with
  | nil => intro b; exact ⟨b, rfl, le_refl _, by simp, Or.inl rfl⟩
  | cons a l ih =>
    intro b
    rw [List.foldl_cons]
    by_cases h : b.2 < a.2
    · obtain ⟨r, hr, hle, hall, hcases⟩ := ih a
      have hstep : bestStep (some b) a = some a := by simp [bestStep, h]
      refine ⟨r, by rw [hstep]; exact hr, le_trans (le_of_lt h) hle, ?_, ?_⟩
      · intro q hq
        rcases List.mem_cons.mp hq with rfl | hq
        · exact hle
        · exact hall q hq
      · right
        refine ⟨lt_of_lt_of_le h hle, ?_⟩
        rcases hcases with rfl | ⟨hlt, hfind⟩
        · simp [List.find?]
        · have hna : ¬ (r.2 ≤ a.2) := not_le.mpr hlt
          simp [List.find?, hna, hfind]
    · obtain ⟨r, hr, hle, hall, hcases⟩ := ih b
      have hstep : bestStep (some b) a = some b := by simp [bestStep, h]
      refine ⟨r, by rw [hstep]; exact hr, hle, ?_, ?_⟩
      · intro q hq
        rcases List.mem_cons.mp hq with rfl | hq
        · exact le_trans (not_lt.mp h) hle
        · exact hall q hq
      · rcases hcases with rfl | ⟨hlt, hfind⟩
        · exact Or.inl rfl
        · right
          refine ⟨hlt, ?_⟩
          have hna : ¬ (r.2 ≤ a.2) := not_le.mpr (lt_of_le_of_lt (not_lt.mp h) hlt)
          simp [List.find?, hna, hfind]

theorem selectBest_spec (l : List (PlaneOption × ℤ)) (h : l ≠ []) :
    ∃ r, l.foldl bestStep none = some r ∧ (∀ q ∈ l, q.2 ≤ r.2) ∧
      l.find? (fun q => decide (r.2 ≤ q.2)) = some r := by
  cases l with
  | nil => cases h rfl
  | cons a l =>
    obtain ⟨r, hr, hle, hall, hcases⟩ := bestStep_foldl l a
    have hstep : bestStep none a = some a := rfl
    refine ⟨r, by rw [List.foldl_cons, hstep]; exact hr, ?_, ?_⟩
    · intro q hq
      rcases List.mem_cons.mp hq with rfl | hq
      · exact hle
      · exact hall q hq
    · rcases hcases with rfl | ⟨hlt, hfind⟩
      · simp [List.find?]
      · have hna : ¬ (r.2 ≤ a.2) := not_le.mpr hlt
        simp [List.find?, hna, hfind]

theorem selectBest_none (l : List (PlaneOption × ℤ)) (h : l.foldl bestStep none = none) :
    l = [] := by
  cases l with
  | nil => rfl
  | cons a l =>
    obtain ⟨r, hr, -, -, -⟩ := bestStep_foldl l a
    rw [List.foldl_cons] at h
    have hstep : bestStep none a = some a := rfl
    rw [hstep, hr] at h
    cases h


theorem scoredOptions_cons_none {d t : ℚ} {bi : List String} {fA tA : Airport}
    {mm : Nat → Option ModelSpec} {a : PlaneOption} {l : List PlaneOption}
    (hm : mm a.modelId = none) :
    scoredOptions d t bi fA tA mm (a :: l) = scoredOptions d t bi fA tA mm l := by
  simp [scoredOptions, List.filterMap_cons, hm]

theorem scoredOptions_cons_zero {d t : ℚ} {bi : List String} {fA tA : Airport}
    {mm : Nat → Option ModelSpec} {a : PlaneOption} {l : List PlaneOption}
    {s : ModelSpec} (hm : mm a.modelId = some s) (hf : a.maxFrequency = 0) :
    scoredOptions d t bi fA tA mm (a :: l) = scoredOptions d t bi fA tA mm l := by
  simp [scoredOptions, List.filterMap_cons, hm, hf]

theorem scoredOptions_cons_some {d t : ℚ} {bi : List String} {fA tA : Airport}
    {mm : Nat → Option ModelSpec} {a : PlaneOption} {l : List PlaneOption}
    {s : ModelSpec} (hm : mm a.modelId = some s) (hf : ¬ a.maxFrequency = 0) :
    scoredOptions d t bi fA tA mm (a :: l)
      = (a, scoreOf d t bi fA tA s a) :: scoredOptions d t bi fA tA mm l := by
  simp [scoredOptions, List.filterMap_cons, hm, hf]

theorem scored_foldl_eq (d t : ℚ) (bi : List String) (fA tA : Airport)
    (mm : Nat → Option ModelSpec) (l : List PlaneOption) :
    ∀ acc : Option (PlaneOption × ℤ),
    l.foldl (fun best plane =>
      match mm plane.modelId with
      | none => best
      | some planeBaseStats =>
        if plane.maxFrequency = 0 then best
        else bestStep best (plane, scoreOf d t bi fA tA planeBaseStats plane)) acc
      = (scoredOptions d t bi fA tA mm l).foldl bestStep acc := by
  induction l with
  | nil => intro acc; rfl
  | cons a l ih =>
    intro acc
    rw [List.foldl_cons]
    cases hm : mm a.modelId with
    | none =>
      rw [scoredOptions_cons_none hm]
      exact ih acc
    | some s =>
      by_cases hf : a.maxFrequency = 0
      · rw [scoredOptions_cons_zero hm hf]
        dsimp only
        rw [if_pos hf]
        exact ih acc
      · rw [scoredOptions_cons_some hm hf]
        dsimp only
        rw [if_neg hf, List.foldl_cons]
        exact ih _

theorem analyzeRoute_eq (rd : RouteData) (L : List UserPlane)
    (mm : Nat → Option ModelSpec) (am : Nat → Option Airport) (bi : List String)
    (fA tA : Airport) (hfrom : am rd.fromAirportId = some fA)
    (hto : am rd.toAirportId = some tA) :
    analyzeRoute rd L mm am bi =
      match (routeScored rd L mm bi fA tA).foldl bestStep none with
      | none => none
      | some b => some ⟨rd.fromAirportId, rd.toAirportId, b.2, b.1.modelName⟩ := by
  unfold analyzeRoute routeScored
  by_cases hv : rd.modelPlanLinkInfo.filter (fun m => planeMatches L m) = []
  · rw [if_pos hv, hv]
    simp [scoredOptions]
  · rw [if_neg hv, hfrom, hto]
    dsimp only
    rw [scored_foldl_eq]


theorem userPlaneIds_mem (L : List UserPlane) (i : Nat) :
    i ∈ userPlaneIds L ↔ ∃ p ∈ L, p.modelId = some i ∧ i ≠ 0 := by
  unfold userPlaneIds
  rw [List.mem_filterMap]
  constructor
  · rintro ⟨p, hp, hid⟩
    rw [List.mem_filter] at hp
    refine ⟨p, hp.1, hid, ?_⟩
    have ht := hp.2
    unfold truthyId at ht
    rw [hid] at ht
    simpa using ht
  · rintro ⟨p, hp, hid, hne⟩
    refine ⟨p, ?_, hid⟩
    rw [List.mem_filter]
    refine ⟨hp, ?_⟩
    unfold truthyId
    rw [hid]
    simpa using hne

theorem userPlaneNames_mem (L : List UserPlane) (n : String) :
    n ∈ userPlaneNames L ↔
      ∃ p ∈ L, ∃ s, p.modelName = some s ∧ s ≠ "" ∧ n = jsTrimLower s := by
  unfold userPlaneNames
  rw [List.mem_filterMap]
  constructor
  · rintro ⟨p, hp, hid⟩
    rw [List.mem_filter] at hp
    rw [Option.map_eq_some'] at hid
    obtain ⟨s, hs, rfl⟩ := hid
    refine ⟨p, hp.1, s, hs, ?_, rfl⟩
    have ht := hp.2
    unfold truthyName at ht
    rw [hs] at ht
    simpa using ht
  · rintro ⟨p, hp, s, hs, hne, rfl⟩
    refine ⟨p, ?_, ?_⟩
    · rw [List.mem_filter]
      refine ⟨hp, ?_⟩
      unfold truthyName
      rw [hs]
      simpa using hne
    · rw [Option.map_eq_some']
      exact ⟨s, hs, rfl⟩

theorem planeMatches_true_iff (L : List UserPlane) (m : PlaneOption) :
    planeMatches L m = true ↔
      m.modelId ∈ userPlaneIds L ∨
      (m.modelName ≠ "" ∧
        ∃ n ∈ userPlaneNames L, jsIncludes (jsTrimLower m.modelName) n = true) := by
  unfold planeMatches
  by_cases hm : m.modelName = "" <;>
    simp [hm, List.any_eq_true, List.contains, List.elem_eq_mem]

theorem specMatchesB_true_iff (L : List UserPlane) (m : PlaneOption) :
    specMatchesB L m = true ↔
      (∃ p ∈ L, p.modelId = some m.modelId) ∨
      (∃ p ∈ L, ∃ s, p.modelName = some s ∧
        jsIncludes (jsTrimLower m.modelName) (jsTrimLower s) = true) := by
  unfold specMatchesB
  have hmatch : ∀ p : UserPlane,
      ((match p.modelName with
        | some s => jsIncludes (jsTrimLower m.modelName) (jsTrimLower s)
        | none => false) = true) ↔
      ∃ s, p.modelName = some s ∧
        jsIncludes (jsTrimLower m.modelName) (jsTrimLower s) = true := by
    intro p
    cases h : p.modelName with
    | none => simp
    | some s => simp [h]
  simp [List.any_eq_true, beq_iff_eq, hmatch]


theorem planeMatches_eq_spec (L : List UserPlane)
    (hId : ∀ p ∈ L, p.modelId ≠ some 0)
    (hName : ∀ p ∈ L, ∀ s, p.modelName = some s → jsTrimLower s ≠ "")
    (m : PlaneOption) :
    planeMatches L m = specMatchesB L m := by
  have hiff : planeMatches L m = true ↔ specMatchesB L m = true := by
    rw [planeMatches_true_iff, specMatchesB_true_iff]
    constructor
    · rintro (hid | ⟨hne, n, hn, hinc⟩)
      · obtain ⟨p, hp, hpid, hne0⟩ := (userPlaneIds_mem L m.modelId).mp hid
        exact Or.inl ⟨p, hp, hpid⟩
      · obtain ⟨p, hp, s, hps, hsne, rfl⟩ := (userPlaneNames_mem L n).mp hn
        exact Or.inr ⟨p, hp, s, hps, hinc⟩
    · rintro (⟨p, hp, hpid⟩ | ⟨p, hp, s, hps, hinc⟩)
      · refine Or.inl ((userPlaneIds_mem L m.modelId).mpr ⟨p, hp, hpid, ?_⟩)
        intro h0
        exact hId p hp (h0 ▸ hpid)
      · have hsnorm : jsTrimLower s ≠ "" := hName p hp s hps
        have hsne : s ≠ "" := by
          intro h
          apply hsnorm
          rw [h]
          decide
        refine Or.inr ⟨?_, jsTrimLower s,
          (userPlaneNames_mem L (jsTrimLower s)).mpr ⟨p, hp, s, hps, hsne, rfl⟩, hinc⟩
        intro hmm
        rw [hmm] at hinc
        unfold jsIncludes at hinc
        have h3 : (jsTrimLower s).data <:+: (jsTrimLower "").data :=
          of_decide_eq_true hinc
        have h4 : (jsTrimLower s).data = [] := by
          simpa [jsTrimLower, trimChars] using h3
        apply hsnorm
        apply String.ext
        simpa using h4
  cases hb : planeMatches L m <;> cases hb2 : specMatchesB L m <;> first
    | rfl
    | (exfalso; rw [hb, hb2] at hiff; simp at hiff)

theorem filter_planeMatches_eq_spec (L : List UserPlane) (options : List PlaneOption)
    (hId : ∀ p ∈ L, p.modelId ≠ some 0)
    (hName : ∀ p ∈ L, ∀ s, p.modelName = some s → jsTrimLower s ≠ "") :
    options.filter (fun m => planeMatches L m)
      = options.filter (fun m => specMatchesB L m) := by
  apply List.filter_congr
  intro m _
  exact planeMatches_eq_spec L hId hName m

theorem analyzeRoute_none_of_noViable (rd : RouteData) (L : List UserPlane)
    (mm : Nat → Option ModelSpec) (am : Nat → Option Airport) (bi : List String)
    (hv : rd.modelPlanLinkInfo.filter (fun m => planeMatches L m) = []) :
    analyzeRoute rd L mm am bi = none := by
  unfold analyzeRoute
  rw [if_pos hv]



theorem sortScores_sorted (l : List RouteScore) : List.Sorted scoreGe (sortScores l) :=
  List.sorted_insertionSort scoreGe l

theorem sortScores_perm (l : List RouteScore) : List.Perm (sortScores l) l :=
  List.perm_insertionSort scoreGe l

/-- C8: for every list of route scores the stored per-base result is
sorted by score descending, has at most ten elements, and together with
the dropped tail is a permutation of the input in which every kept
element has a score at least that of every dropped element, so the
result is exactly the ten highest scores with ties kept in full. -/
theorem topTen_sorted_truncated (l : List RouteScore) :
    (topTen l).length ≤ 10
    ∧ List.Sorted scoreGe (topTen l)
    ∧ List.Perm (topTen l ++ (sortScores l).drop 10) l
    ∧ ∀ x ∈ topTen l, ∀ y ∈ (sortScores l).drop 10, y.score ≤ x.score := by
  refine ⟨?_, ?_, ?_, ?_⟩
  · rw [topTen, List.length_take]
    exact min_le_left _ _
  · exact List.Pairwise.sublist (List.take_sublist 10 (sortScores l)) (sortScores_sorted l)
  · rw [topTen, List.take_append_drop]
    exact sortScores_perm l
  · have hs := sortScores_sorted l
    rw [← List.take_append_drop 10 (sortScores l)] at hs
    have := (List.pairwise_append.mp hs).2.2
    intro x hx y hy
    exact this x hx y hy



theorem ex_weekly1 : weeklyCost 500 ["AAA"] exA exB exSpec exP1 = 2514 := by
  have hlook : airplaneTypeMultiplierMap.lookup "SMALL" = some 1 := by rfl
  have hne : ¬ (("BBB" : String) = "AAA") := by decide
  unfold weeklyCost calculateFuelCost calculateCrewCost calculateAirportFees
    calculateDepreciation calculateMaintenance calculateServiceSupplies
  norm_num [exA, exB, exSpec, exP1, FUEL_UNIT_COST, CREW_UNIT_COST,
    BASE_INFLIGHT_COST, DEFAULT_LOAD_FACTOR, DEFAULT_QUALITY,
    ASCEND_FUEL_BURN_MULTIPLIER_1, ASCEND_FUEL_BURN_MULTIPLIER_2,
    ASCEND_FUEL_BURN_MULTIPLIER_3, baseSlotFees,
    durationCostPerHourByStar, hlook, hne]

theorem ex_weekly2 : weeklyCost 500 ["AAA"] exA exB exSpec exP2 = 4874 := by
  have hlook : airplaneTypeMultiplierMap.lookup "SMALL" = some 1 := by rfl
  have hne : ¬ (("BBB" : String) = "AAA") := by decide
  unfold weeklyCost calculateFuelCost calculateCrewCost calculateAirportFees
    calculateDepreciation calculateMaintenance calculateServiceSupplies
  norm_num [exA, exB, exSpec, exP2, FUEL_UNIT_COST, CREW_UNIT_COST,
    BASE_INFLIGHT_COST, DEFAULT_LOAD_FACTOR, DEFAULT_QUALITY,
    ASCEND_FUEL_BURN_MULTIPLIER_1, ASCEND_FUEL_BURN_MULTIPLIER_2,
    ASCEND_FUEL_BURN_MULTIPLIER_3, baseSlotFees,
    durationCostPerHourByStar, hlook, hne]

theorem ex_score1 : scoreOf 500 300 ["AAA"] exA exB exSpec exP1 = 486 := by
  unfold scoreOf
  rw [ex_weekly1]
  norm_num [exP1, round_eq]

theorem ex_score2 : scoreOf 500 300 ["AAA"] exA exB exSpec exP2 = 1126 := by
  unfold scoreOf
  rw [ex_weekly2]
  norm_num [exP2, round_eq]

theorem ex_score1_neg : scoreOf 500 1 ["AAA"] exA exB exSpec exP1 = -2504 := by
  unfold scoreOf
  rw [ex_weekly1]
  norm_num [exP1, round_eq]



theorem ex_weekly1c : weeklyCost 500 ["AAA"] exA exC exSpec exP1 = 2514 := by
  have hlook : airplaneTypeMultiplierMap.lookup "SMALL" = some 1 := by rfl
  have hne : ¬ (("CCC" : String) = "AAA") := by decide
  unfold weeklyCost calculateFuelCost calculateCrewCost calculateAirportFees
    calculateDepreciation calculateMaintenance calculateServiceSupplies
  norm_num [exA, exC, exSpec, exP1, FUEL_UNIT_COST, CREW_UNIT_COST,
    BASE_INFLIGHT_COST, DEFAULT_LOAD_FACTOR, DEFAULT_QUALITY,
    ASCEND_FUEL_BURN_MULTIPLIER_1, ASCEND_FUEL_BURN_MULTIPLIER_2,
    ASCEND_FUEL_BURN_MULTIPLIER_3, baseSlotFees,
    durationCostPerHourByStar, hlook, hne]

theorem ex_score1c : scoreOf 500 300 ["AAA"] exA exC exSpec exP1 = 486 := by
  unfold scoreOf
  rw [ex_weekly1c]
  norm_num [exP1, round_eq]

theorem ex_ticket : getTicketPrice exRd = 300 := by rfl

theorem ex_ticketC : getTicketPrice exRdC = 300 := by rfl

theorem ex_ticketNeg : getTicketPrice exRdNeg = 1 := by rfl

theorem ex_viable : exRd.modelPlanLinkInfo.filter (fun m => planeMatches exPlanes m)
    = [exP1, exP2] := by decide

theorem ex_viableC : exRdC.modelPlanLinkInfo.filter (fun m => planeMatches exPlanes m)
    = [exP1] := by decide

theorem ex_viableNeg : exRdNeg.modelPlanLinkInfo.filter (fun m => planeMatches exPlanes m)
    = [exP1] := by decide

theorem ex_scored : scoredOptions 500 300 ["AAA"] exA exB exMM [exP1, exP2]
    = [(exP1, 486), (exP2, 1126)] := by
  have h1 : exMM exP1.modelId = some exSpec := rfl
  have h2 : exMM exP2.modelId = some exSpec := rfl
  rw [scoredOptions_cons_some h1 (by decide), scoredOptions_cons_some h2 (by decide)]
  rw [ex_score1, ex_score2]
  rfl

theorem ex_scoredC : scoredOptions 500 300 ["AAA"] exA exC exMM [exP1]
    = [(exP1, 486)] := by
  have h1 : exMM exP1.modelId = some exSpec := rfl
  rw [scoredOptions_cons_some h1 (by decide)]
  rw [ex_score1c]
  rfl

theorem ex_scoredNeg : scoredOptions 500 1 ["AAA"] exA exB exMM [exP1]
    = [(exP1, -2504)] := by
  have h1 : exMM exP1.modelId = some exSpec := rfl
  rw [scoredOptions_cons_some h1 (by decide)]
  rw [ex_score1_neg]
  rfl

theorem ex_analyze (am : Nat → Option Airport) (hfrom : am 1 = some exA)
    (hto : am 2 = some exB) :
    analyzeRoute exRd exPlanes exMM am ["AAA"] = some ⟨1, 2, 1126, "jet big"⟩ := by
  rw [analyzeRoute_eq exRd exPlanes exMM am ["AAA"] exA exB hfrom hto]
  unfold routeScored
  rw [show exRd.distance = 500 from rfl, show getTicketPrice exRd = 300 from rfl,
    ex_viable, ex_scored]
  decide

theorem ex_analyzeC (am : Nat → Option Airport) (hfrom : am 1 = some exA)
    (hto : am 3 = some exC) :
    analyzeRoute exRdC exPlanes exMM am ["AAA"] = some ⟨1, 3, 486, "jet small"⟩ := by
  rw [analyzeRoute_eq exRdC exPlanes exMM am ["AAA"] exA exC hfrom hto]
  unfold routeScored
  rw [show exRdC.distance = 500 from rfl, show getTicketPrice exRdC = 300 from rfl,
    ex_viableC, ex_scoredC]
  decide

theorem ex_analyzeNeg (am : Nat → Option Airport) (hfrom : am 1 = some exA)
    (hto : am 2 = some exB) :
    analyzeRoute exRdNeg exPlanes exMM am ["AAA"] = some ⟨1, 2, -2504, "jet small"⟩ := by
  rw [analyzeRoute_eq exRdNeg exPlanes exMM am ["AAA"] exA exB hfrom hto]
  unfold routeScored
  rw [show exRdNeg.distance = 500 from rfl, show getTicketPrice exRdNeg = 1 from rfl,
    ex_viableNeg, ex_scoredNeg]
  decide



theorem ex_scan1 : scanBase exFetch1 exPlanes exMM (airportIdLookup [exA, exB]) ["AAA"]
    exA 1 [exA, exB]
    = [⟨1, 2, 1126, "jet big", "AAA", "Alpha", "BBB", "Beta"⟩] := by
  unfold scanBase
  rw [List.foldl_cons, if_pos (show (1 : Nat) = exA.id from rfl), List.foldl_cons,
    if_neg (by decide : ¬ ((1 : Nat) = exB.id))]
  have hf : exFetch1 1 exB.id = some exRd := rfl
  rw [hf]
  dsimp only
  rw [ex_analyze (airportIdLookup [exA, exB]) rfl rfl]
  rfl

theorem ex_run1 : runAnalysisCore exFetch1 [exA, exB] 0 [("AAA", 1)] exPlanes exMM
    = [("AAA", [⟨1, 2, 1126, "jet big", "AAA", "Alpha", "BBB", "Beta"⟩])] := by
  unfold runAnalysisCore
  rw [List.foldl_cons, List.foldl_nil]
  have hlook : airportIdLookup [exA, exB] 1 = some exA := rfl
  rw [hlook]
  dsimp only
  simp only [List.map_cons, List.map_nil]
  rw [show applyTestLimit [exA, exB] 0 = [exA, exB] from rfl, ex_scan1]
  rfl


theorem topTen_singleton (x : RouteScore) : topTen [x] = [x] := by
  simp [topTen, sortScores]

theorem scoredOptions_mem {d t : ℚ} {bi : List String} {fA tA : Airport}
    {mm : Nat → Option ModelSpec} {l : List PlaneOption} {q : PlaneOption × ℤ}
    (hq : q ∈ scoredOptions d t bi fA tA mm l) :
    q.1 ∈ l ∧ 0 < q.1.maxFrequency ∧
      ∃ spec, mm q.1.modelId = some spec ∧ q.2 = scoreOf d t bi fA tA spec q.1 := by
  unfold scoredOptions at hq
  rw [List.mem_filterMap] at hq
  obtain ⟨p, hp, hf⟩ := hq
  cases hm : mm p.modelId with
  | none => rw [hm] at hf; cases hf
  | some spec =>
    rw [hm] at hf
    dsimp only at hf
    by_cases hz : p.maxFrequency = 0
    · rw [if_pos hz] at hf; cases hf
    · rw [if_neg hz] at hf
      cases hf
      exact ⟨hp, Nat.pos_of_ne_zero hz, spec, hm, rfl⟩

/-- C3: for every route input the weekly fuel cost factors as the banded
per-flight fuel sum times a constant unit price (the per-flight fuel
price constant doubled for the round trip), times the weekly frequency,
times the load-factor multiplier, and that multiplier is exactly 1 at
full load; the banded sum follows the ascent bands of the source in each
distance range. -/
theorem calculateFuelCost_banded_formula (distance fuelBurn : ℚ) (frequency : Nat)
    (loadFactor : ℚ) :
    calculateFuelCost distance fuelBurn frequency loadFactor
        = fuelUnitsPerFlight distance fuelBurn * (2 * FUEL_UNIT_COST) * (frequency : ℚ)
          * loadFactorMultiplier loadFactor
    ∧ loadFactorMultiplier 1 = 1
    ∧ (distance ≤ 360 → fuelUnitsPerFlight distance fuelBurn
        = distance / 2 * fuelBurn * 32 + distance / 2 * fuelBurn)
    ∧ (360 < distance → distance ≤ 500 → fuelUnitsPerFlight distance fuelBurn
        = 180 * fuelBurn * 32 + (distance / 2 - 180) * fuelBurn * 13
          + distance / 2 * fuelBurn)
    ∧ (500 < distance → distance ≤ 2000 → fuelUnitsPerFlight distance fuelBurn
        = 180 * fuelBurn * 32 + 250 * fuelBurn * 13
          + (distance / 2 - 180 - 250) * fuelBurn * 2 + distance / 2 * fuelBurn)
    ∧ (2000 < distance → fuelUnitsPerFlight distance fuelBurn
        = 180 * fuelBurn * 32 + 250 * fuelBurn * 13 + 1000 * fuelBurn * 2
          + (distance - 180 - 250 - 1000) * fuelBurn) := by
  refine ⟨?_, ?_, ?_, ?_, ?_, ?_⟩
  · unfold calculateFuelCost fuelUnitsPerFlight loadFactorMultiplier FUEL_UNIT_COST
      ASCEND_FUEL_BURN_MULTIPLIER_1 ASCEND_FUEL_BURN_MULTIPLIER_2
      ASCEND_FUEL_BURN_MULTIPLIER_3
    split_ifs <;> ring
  · unfold loadFactorMultiplier; norm_num
  · intro h1
    unfold fuelUnitsPerFlight ASCEND_FUEL_BURN_MULTIPLIER_1
    rw [if_pos h1]
  · intro h1 h2
    unfold fuelUnitsPerFlight ASCEND_FUEL_BURN_MULTIPLIER_1 ASCEND_FUEL_BURN_MULTIPLIER_2
    rw [if_neg (by linarith), if_pos h2]
  · intro h1 h2
    unfold fuelUnitsPerFlight ASCEND_FUEL_BURN_MULTIPLIER_1 ASCEND_FUEL_BURN_MULTIPLIER_2
      ASCEND_FUEL_BURN_MULTIPLIER_3
    rw [if_neg (by linarith), if_neg (by linarith), if_pos h2]
  · intro h1
    unfold fuelUnitsPerFlight ASCEND_FUEL_BURN_MULTIPLIER_1 ASCEND_FUEL_BURN_MULTIPLIER_2
      ASCEND_FUEL_BURN_MULTIPLIER_3
    rw [if_neg (by linarith), if_neg (by linarith), if_neg (by linarith)]

/-- C4: the weekly crew cost is capacity times the one-way duration in
hours times a constant per-hour-per-seat crew rate (the per-flight rate
doubled for the round trip) times the weekly frequency. -/
theorem calculateCrewCost_formula (capacity durationMinutes frequency : Nat) :
    calculateCrewCost capacity durationMinutes frequency
      = (capacity : ℚ) * ((durationMinutes : ℚ) / 60) * (CREW_UNIT_COST * 2)
        * (frequency : ℚ) := by
  unfold calculateCrewCost
  ring


theorem ex_routeScored : routeScored exRd exPlanes exMM ["AAA"] exA exB
    = [(exP1, 486), (exP2, 1126)] := by
  unfold routeScored
  rw [show exRd.distance = 500 from rfl, show getTicketPrice exRd = 300 from rfl,
    ex_viable, ex_scored]

/-- C2: when the scored option list of a route offer is non-empty, the
analyzer returns a result whose score is the per-option formula
round((ticketPrice times frequency times capacity minus weekly cost)
divided by frequency) of the first option attaining the maximum, every
scored option is bounded by the returned score, and every scored option
has positive frequency, known base stats and exactly that formula as its
score. -/
theorem analyzeRoute_selects_max (rd : RouteData) (L : List UserPlane)
    (mm : Nat → Option ModelSpec) (am : Nat → Option Airport) (bi : List String)
    (fA tA : Airport) (hfrom : am rd.fromAirportId = some fA)
    (hto : am rd.toAirportId = some tA)
    (hne : routeScored rd L mm bi fA tA ≠ []) :
    ∃ r, analyzeRoute rd L mm am bi = some r
      ∧ r.fromAirportId = rd.fromAirportId ∧ r.toAirportId = rd.toAirportId
      ∧ (∀ q ∈ routeScored rd L mm bi fA tA, q.2 ≤ r.score)
      ∧ ((routeScored rd L mm bi fA tA).find? (fun q => decide (r.score ≤ q.2))).map
          (fun q => (q.1.modelName, q.2)) = some (r.planeName, r.score)
      ∧ ∀ q ∈ routeScored rd L mm bi fA tA, 0 < q.1.maxFrequency ∧
          ∃ spec, mm q.1.modelId = some spec ∧
            q.2 = round ((getTicketPrice rd * (q.1.maxFrequency : ℚ) * (q.1.capacity : ℚ)
              - weeklyCost rd.distance bi fA tA spec q.1) / (q.1.maxFrequency : ℚ)) := by
  obtain ⟨b, hb, hall, hfind⟩ := selectBest_spec (routeScored rd L mm bi fA tA) hne
  refine ⟨⟨rd.fromAirportId, rd.toAirportId, b.2, b.1.modelName⟩, ?_, rfl, rfl, ?_, ?_, ?_⟩
  · rw [analyzeRoute_eq rd L mm am bi fA tA hfrom hto, hb]
  · exact hall
  · rw [hfind]; rfl
  · intro q hq
    unfold routeScored at hq
    obtain ⟨hmem, hpos, spec, hspec, hsc⟩ := scoredOptions_mem hq
    exact ⟨hpos, spec, hspec, by rw [hsc]; rfl⟩

/-- Witness for C2 at the concrete two-option route offer: the big jet
wins with score 1126. -/
theorem analyzeRoute_selects_max_witness :
    ∃ r, analyzeRoute exRd exPlanes exMM exAM ["AAA"] = some r
      ∧ r.fromAirportId = exRd.fromAirportId ∧ r.toAirportId = exRd.toAirportId
      ∧ (∀ q ∈ routeScored exRd exPlanes exMM ["AAA"] exA exB, q.2 ≤ r.score)
      ∧ ((routeScored exRd exPlanes exMM ["AAA"] exA exB).find?
          (fun q => decide (r.score ≤ q.2))).map
          (fun q => (q.1.modelName, q.2)) = some (r.planeName, r.score)
      ∧ ∀ q ∈ routeScored exRd exPlanes exMM ["AAA"] exA exB, 0 < q.1.maxFrequency ∧
          ∃ spec, exMM q.1.modelId = some spec ∧
            q.2 = round ((getTicketPrice exRd * (q.1.maxFrequency : ℚ) * (q.1.capacity : ℚ)
              - weeklyCost exRd.distance ["AAA"] exA exB spec q.1)
              / (q.1.maxFrequency : ℚ)) :=
  analyzeRoute_selects_max exRd exPlanes exMM exAM ["AAA"] exA exB rfl rfl
    (by rw [ex_routeScored]; exact List.cons_ne_nil _ _)


/-- C5: under well-formed planelist entries (no zero id, no fragment
normalizing to the empty string) the viable subset computed by the
matcher is exactly the subset selected by the claim predicate of id
equality or normalized substring containment, and an empty viable
subset makes the route yield no result rather than an error. -/
theorem fleet_matcher_exact (L : List UserPlane) (rd : RouteData)
    (mm : Nat → Option ModelSpec) (am : Nat → Option Airport) (bi : List String)
    (hId : ∀ p ∈ L, p.modelId ≠ some 0)
    (hName : ∀ p ∈ L, ∀ s, p.modelName = some s → jsTrimLower s ≠ "") :
    rd.modelPlanLinkInfo.filter (fun m => planeMatches L m)
        = rd.modelPlanLinkInfo.filter (fun m => specMatchesB L m)
    ∧ (rd.modelPlanLinkInfo.filter (fun m => planeMatches L m) = [] →
        analyzeRoute rd L mm am bi = none) :=
  ⟨filter_planeMatches_eq_spec L rd.modelPlanLinkInfo hId hName,
   analyzeRoute_none_of_noViable rd L mm am bi⟩

/-- Witness for C5 at a concrete offer list: id match, substring match
and non-match agree between the matcher and the claim predicate. -/
theorem fleet_matcher_exact_witness :
    exRd5.modelPlanLinkInfo.filter (fun m => planeMatches exPlanes m)
      = exRd5.modelPlanLinkInfo.filter (fun m => specMatchesB exPlanes m) :=
  (fleet_matcher_exact exPlanes exRd5 exMM exAM ["AAA"] (by decide)
    (by
      intro p hp s hs
      simp only [exPlanes, List.mem_cons, List.not_mem_nil, or_false] at hp
      rcases hp with rfl | rfl
      · cases hs
      · cases hs
        decide)).1

/-- C6: the ticket price is the minimum competitor economy price when
competitors exist and the suggested economy price otherwise; on the
concrete instances, competitor prices 500 and 650 give exactly 500 and
no competitors with suggested price 420 give exactly 420. -/
theorem ticket_price_min_or_suggested (rd : RouteData) :
    (rd.otherLinks = [] → getTicketPrice rd = rd.suggestedPriceEconomy)
    ∧ (rd.otherLinks ≠ [] →
        getTicketPrice rd ∈ rd.otherLinks.map (fun c => c.priceEconomy)
        ∧ ∀ p ∈ rd.otherLinks.map (fun c => c.priceEconomy), getTicketPrice rd ≤ p)
    ∧ getTicketPrice exRdTwo = 500
    ∧ getTicketPrice exRdZero = 420 := by
  refine ⟨?_, ?_, ?_, rfl⟩
  · intro h
    unfold getTicketPrice
    rw [h]
    rfl
  · intro h
    cases hl : rd.otherLinks with
    | nil => exact absurd hl h
    | cons c cs =>
      unfold getTicketPrice
      rw [hl]
      simp only [List.map_cons]
      constructor
      · rcases foldl_min_mem (cs.map (fun x => x.priceEconomy)) c.priceEconomy with h2 | h2
        · rw [h2]; exact List.mem_cons_self _ _
        · exact List.mem_cons_of_mem _ h2
      · intro p hp
        rcases List.mem_cons.mp hp with rfl | hp
        · exact foldl_min_le_init _ _
        · exact foldl_min_le_mem _ _ _ hp
  · unfold getTicketPrice exRdTwo
    norm_num [min_def]

/-- Witness for C6: the two concrete price selections of the claim. -/
theorem ticket_price_min_or_suggested_witness :
    getTicketPrice exRdTwo ∈ exRdTwo.otherLinks.map (fun c => c.priceEconomy)
    ∧ getTicketPrice exRdTwo = 500
    ∧ getTicketPrice exRdZero = 420 :=
  ⟨((ticket_price_min_or_suggested exRdTwo).2.1 (by decide)).1,
   (ticket_price_min_or_suggested exRdTwo).2.2.1,
   (ticket_price_min_or_suggested exRdZero).2.2.2⟩



/-- C7: when the quote fetch fails for the first destination and
succeeds for the second, the run completes normally: the failed pair
contributes nothing, the successful pair result is stored under the
base, and the orchestrator returns a value rather than escaping. -/
theorem pair_failure_isolated (fetch : Nat → Nat → Option RouteData)
    (A Bdest Cdest : Airport) (L : List UserPlane) (mm : Nat → Option ModelSpec)
    (rd : RouteData) (a : AnalyzeResult)
    (hBA : Bdest.id ≠ A.id) (hCA : Cdest.id ≠ A.id)
    (hfail : fetch A.id Bdest.id = none)
    (hok : fetch A.id Cdest.id = some rd)
    (hres : analyzeRoute rd L mm (airportIdLookup [A, Bdest, Cdest]) [A.iata] = some a) :
    runAnalysisCore fetch [A, Bdest, Cdest] 0 [(A.iata, A.id)] L mm
      = [(A.iata, [attachIdentity a A Cdest])] := by
  unfold runAnalysisCore
  rw [List.foldl_cons, List.foldl_nil]
  have hlook : airportIdLookup [A, Bdest, Cdest] A.id = some A := by
    simp [airportIdLookup, List.find?]
  rw [hlook]
  dsimp only
  simp only [List.map_cons, List.map_nil]
  have happ : applyTestLimit [A, Bdest, Cdest] 0 = [A, Bdest, Cdest] := by
    unfold applyTestLimit
    rw [if_neg]
    simp
  rw [happ]
  have hscan : scanBase fetch L mm (airportIdLookup [A, Bdest, Cdest]) [A.iata] A A.id
      [A, Bdest, Cdest] = [attachIdentity a A Cdest] := by
    unfold scanBase
    rw [List.foldl_cons, if_pos rfl, List.foldl_cons,
      if_neg (fun h => hBA h.symm), hfail]
    dsimp only
    rw [List.foldl_cons, if_neg (fun h => hCA h.symm), hok]
    dsimp only
    rw [hres]
    rfl
  rw [hscan, topTen_singleton]
  rfl

/-- Witness for C7: with the concrete data source that fails for the
pair 1 to 2 and succeeds for 1 to 3, the run stores exactly the score
of the successful pair. -/
theorem pair_failure_isolated_witness :
    runAnalysisCore exFetch [exA, exB, exC] 0 [(exA.iata, exA.id)] exPlanes exMM
      = [(exA.iata, [attachIdentity ⟨1, 3, 486, "jet small"⟩ exA exC])] :=
  pair_failure_isolated exFetch exA exB exC exPlanes exMM exRdC
    ⟨1, 3, 486, "jet small"⟩ (by decide) (by decide) rfl rfl
    (ex_analyzeC (airportIdLookup [exA, exB, exC]) rfl rfl)

/-- C1: the destination candidate list of the orchestrator removes only
the base airport itself; the per-base exclude set is never consulted.
With base AAA (id 1) whose exclude set holds id 2 (BBB), the code keeps
BBB as a candidate and the run output scores BBB, while the candidate
list described by the spec and the README is empty. -/
theorem exclude_set_ignored_by_scan :
    candidateDestinations [exA, exB] 1 = [exB]
    ∧ specCandidateDestinations [exA, exB] 1 [2] = []
    ∧ runAnalysisCore exFetch1 [exA, exB] 0 [("AAA", 1)] exPlanes exMM
        = [("AAA", [⟨1, 2, 1126, "jet big", "AAA", "Alpha", "BBB", "Beta"⟩])] :=
  ⟨by decide, by decide, ex_run1⟩



/-- C9: an analysis result exists for a pair only when some offered
option matches the planelist and the winning option has strictly
positive weekly frequency; with no matching option, or no scoreable
option at all, the pair silently yields no result. -/
theorem routeScore_requires_viable (rd : RouteData) (L : List UserPlane)
    (mm : Nat → Option ModelSpec) (am : Nat → Option Airport) (bi : List String) :
    (∀ r, analyzeRoute rd L mm am bi = some r →
      ∃ m ∈ rd.modelPlanLinkInfo, planeMatches L m = true ∧ 0 < m.maxFrequency
        ∧ r.planeName = m.modelName)
    ∧ (rd.modelPlanLinkInfo.filter (fun m => planeMatches L m) = [] →
        analyzeRoute rd L mm am bi = none)
    ∧ (∀ fA tA, am rd.fromAirportId = some fA → am rd.toAirportId = some tA →
        routeScored rd L mm bi fA tA = [] → analyzeRoute rd L mm am bi = none) := by
  refine ⟨?_, analyzeRoute_none_of_noViable rd L mm am bi, ?_⟩
  · intro r hr
    unfold analyzeRoute at hr
    by_cases hv : rd.modelPlanLinkInfo.filter (fun m => planeMatches L m) = []
    · rw [if_pos hv] at hr
      cases hr
    · rw [if_neg hv] at hr
      cases hfa : am rd.fromAirportId with
      | none => rw [hfa] at hr; dsimp only at hr; cases hr
      | some fA =>
        rw [hfa] at hr
        cases hfb : am rd.toAirportId with
        | none => rw [hfb] at hr; dsimp only at hr; cases hr
        | some tA =>
          rw [hfb] at hr
          dsimp only at hr
          rw [scored_foldl_eq] at hr
          cases hbest : List.foldl bestStep none
              (scoredOptions rd.distance (getTicketPrice rd) bi fA tA mm
                (rd.modelPlanLinkInfo.filter (fun m => planeMatches L m))) with
          | none => rw [hbest] at hr; cases hr
          | some b =>
            rw [hbest] at hr
            cases hr
            have hne : scoredOptions rd.distance (getTicketPrice rd) bi fA tA mm
                (rd.modelPlanLinkInfo.filter (fun m => planeMatches L m)) ≠ [] := by
              intro hnil
              rw [hnil] at hbest
              cases hbest
            obtain ⟨r2, hr2, -, hfind⟩ := selectBest_spec _ hne
            rw [hbest] at hr2
            cases hr2
            have hmem := List.mem_of_find?_eq_some hfind
            obtain ⟨hmem2, hpos, -, -, -⟩ := scoredOptions_mem hmem
            rw [List.mem_filter] at hmem2
            exact ⟨b.1, hmem2.1, hmem2.2, hpos, rfl⟩
  · intro fA tA hfa hto hsc
    rw [analyzeRoute_eq rd L mm am bi fA tA hfa hto, hsc]
    rfl

/-- Witness for C9 at the concrete route offer: the winning plane is an
offered option that matches the planelist and has positive frequency. -/
theorem routeScore_requires_viable_witness :
    ∃ m ∈ exRd.modelPlanLinkInfo, planeMatches exPlanes m = true ∧ 0 < m.maxFrequency
      ∧ ("jet big" : String) = m.modelName :=
  (routeScore_requires_viable exRd exPlanes exMM exAM ["AAA"]).1
    ⟨1, 2, 1126, "jet big"⟩ (ex_analyze exAM rfl rfl)

/-- C10: a route with a scoreable option always yields a result whatever
the sign of the score; at the concrete loss-making route the analyzer
returns score -2504, and the per-base ranking retains that negative
entry in the stored top ten. -/
theorem negative_scores_retained :
    (∀ (rd : RouteData) (L : List UserPlane) (mm : Nat → Option ModelSpec)
      (am : Nat → Option Airport) (bi : List String) (fA tA : Airport),
      am rd.fromAirportId = some fA → am rd.toAirportId = some tA →
      routeScored rd L mm bi fA tA ≠ [] →
      (analyzeRoute rd L mm am bi).isSome = true)
    ∧ analyzeRoute exRdNeg exPlanes exMM exAM ["AAA"] = some ⟨1, 2, -2504, "jet small"⟩
    ∧ (-2504 : ℤ) < 0
    ∧ topTen [⟨1, 2, -2504, "jet small", "AAA", "Alpha", "BBB", "Beta"⟩]
        = [⟨1, 2, -2504, "jet small", "AAA", "Alpha", "BBB", "Beta"⟩] := by
  refine ⟨?_, ex_analyzeNeg exAM rfl rfl, by decide, topTen_singleton _⟩
  intro rd L mm am bi fA tA hf ht hne
  rw [analyzeRoute_eq rd L mm am bi fA tA hf ht]
  obtain ⟨r, hr, -, -⟩ := selectBest_spec _ hne
  rw [hr]
  rfl


end AirlineBot
